import Mathlib

/-!
Shallow embedding of the order/customer domain core of the `clean-py`
repository: value objects (`Money`, typed identifiers), aggregate roots
(`Order`, `Customer`) with their domain-event plumbing, and the order
lifecycle state machine.

Modelling conventions:
* Python `uuid.UUID` values are modelled as `Nat` tokens, `datetime`
  values as `Nat` timestamps and `Decimal` as `Rat`.
* Calls to `uuid4()` / `datetime.now(UTC)` inside a method are modelled by
  explicit `eid : UUID` / `now : Timestamp` parameters (the distinct
  `datetime.now` calls inside one method body are merged into the single
  `now`, which no property below distinguishes).
* A Python method that can `raise` returns `Except PyError α`; methods on
  aggregates additionally return the receiver's state after the call
  (explicit state passing), which for every method below is the unchanged
  receiver because the source never assigns to `self`'s fields.
* The source field `_domain_events : list[DomainEvent]` (from
  `AggregateRoot`) is embedded as the field `domain_events`.
-/

abbrev UUID := Nat
abbrev Timestamp := Nat

/-- `dict[str, Any]` payloads (`Order.details`, `Customer.preferences`)
modelled as association lists. -/
abbrev PyDict := List (String × String)

/-- Python exceptions raised by the domain core: `ValueError`
(value-object / `Customer` validation) and `BusinessRuleViolationError`
(with its optional `rule_name`), from
`src/shared_kernel/exceptions/domain_exceptions.py`. -/
inductive PyError where
  | valueError (message : String)
  | businessRuleViolation (message : String) (rule_name : Option String)
  deriving DecidableEq, Repr

def PyError.isBusinessRuleViolation : PyError → Bool
  | .businessRuleViolation _ _ => true
  | .valueError _ => false

def exceptIsOk {α : Type} : Except PyError α → Bool
  | .ok _ => true
  | .error _ => false

/-- Python `str.strip()` with no argument: removes leading and trailing
whitespace (structural implementation over the character list, so it
evaluates by reduction). -/
def pyStrip (s : String) : String :=
  String.mk (((s.data.dropWhile Char.isWhitespace).reverse.dropWhile
    Char.isWhitespace).reverse)

/-- Python `str.isupper()` restricted to ASCII: true iff the string has at
least one cased (alphabetic) character and every cased character is
uppercase.  This is the check `Money.validate` actually performs on the
currency code. -/
def pyIsUpper (s : String) : Bool :=
  s.data.any Char.isAlpha && s.data.all (fun c => !c.isAlpha || c.isUpper)

/-- `src/shared_kernel/value_objects/money.py`: raw dataclass fields. -/
structure Money where
  amount : Rat
  currency : String
  deriving DecidableEq, Repr

/-- `Money.validate` run by `ValueObject.__post_init__`: construction of a
`Money` either fails (`ValueError`) or yields the value.  Checks in source
order: negative amount, empty currency, then length-3 + `isupper()`. -/
def Money.init (amount : Rat) (currency : String) : Except PyError Money :=
  if amount < 0 then
    .error (.valueError "Amount cannot be negative")
  else if currency = "" then
    .error (.valueError "Currency cannot be empty")
  else if currency.length ≠ 3 || !(pyIsUpper currency) then
    .error (.valueError ("Invalid currency code: " ++ currency))
  else
    .ok ⟨amount, currency⟩

/-- `src/shared_kernel/types/identifiers.py`: `CustomerId` wraps a UUID. -/
structure CustomerId where
  value : UUID
  deriving DecidableEq, Repr

/-- `src/shared_kernel/types/identifiers.py`: `OrderId` wraps a UUID. -/
structure OrderId where
  value : UUID
  deriving DecidableEq, Repr

/-- Runtime view of a typed identifier object, tagged by its Python class;
used to express Python dataclass equality, which requires the classes to
be identical before comparing fields. -/
inductive TypedIdValue where
  | customerId (value : UUID)
  | orderId (value : UUID)
  deriving DecidableEq, Repr

def CustomerId.asPy (i : CustomerId) : TypedIdValue := .customerId i.value

def OrderId.asPy (i : OrderId) : TypedIdValue := .orderId i.value

/-- Python dataclass `__eq__` on typed identifiers: equal iff same class
and same wrapped UUID (a `CustomerId` and an `OrderId` holding the same
UUID compare unequal). -/
def TypedIdValue.pyEq : TypedIdValue → TypedIdValue → Bool
  | .customerId a, .customerId b => a == b
  | .orderId a, .orderId b => a == b
  | _, _ => false

/-- `OrderStatus` enum from `src/domain/entities/order.py`. -/
inductive OrderStatus where
  | PENDING
  | CONFIRMED
  | SHIPPED
  | DELIVERED
  | CANCELLED
  deriving DecidableEq, Repr

/-- `.value` of the `OrderStatus` enum member (used in error messages). -/
def OrderStatus.value : OrderStatus → String
  | .PENDING => "PENDING"
  | .CONFIRMED => "CONFIRMED"
  | .SHIPPED => "SHIPPED"
  | .DELIVERED => "DELIVERED"
  | .CANCELLED => "CANCELLED"

/-- Minimal embedding of the `Email` value object: the claims below only
carry it along, so its regex validation is not re-stated here. -/
structure Email where
  value : String
  deriving DecidableEq, Repr

/-- `Address` value object fields (validation not needed by the claims). -/
structure Address where
  street : String
  city : String
  state : String
  postal_code : String
  country : String
  apartment : Option String := none
  deriving DecidableEq, Repr

/-- `PhoneNumber` value object fields (validation not needed by the
claims). -/
structure PhoneNumber where
  number : String
  country_code : String
  deriving DecidableEq, Repr

/-- The domain events of `order.py` and `customer.py` as one tagged sum;
each constructor carries exactly the declared dataclass fields. -/
inductive DomainEvent where
  | orderCreated (event_id : UUID) (occurred_at : Timestamp)
      (order_id : OrderId) (customer_id : CustomerId) (total_amount : Money)
  | orderCancelled (event_id : UUID) (occurred_at : Timestamp)
      (order_id : OrderId) (customer_id : CustomerId)
      (previous_status : OrderStatus) (reason : String)
  | orderStatusChanged (event_id : UUID) (occurred_at : Timestamp)
      (order_id : OrderId) (customer_id : CustomerId)
      (old_status : OrderStatus) (new_status : OrderStatus)
  | customerCreated (event_id : UUID) (occurred_at : Timestamp)
      (customer_id : CustomerId) (customer_name : String) (customer_email : String)
  | customerDeactivated (event_id : UUID) (occurred_at : Timestamp)
      (customer_id : CustomerId) (reason : String)
  deriving DecidableEq, Repr

/-- `Order` aggregate root (`src/domain/entities/order.py`).  The base
`Entity.id` field is always overwritten by `__post_init__` with
`order_id.value`, so it is exposed as the derived function `Order.id`. -/
structure Order where
  order_id : OrderId
  customer_id : CustomerId
  total_amount : Money
  status : OrderStatus
  details : PyDict
  created_at : Timestamp
  updated_at : Timestamp
  domain_events : List DomainEvent
  deriving DecidableEq, Repr

/-- `Entity.id` of an `Order`, as set by `Order.__post_init__`. -/
def Order.id (o : Order) : UUID := o.order_id.value

/-- `AggregateRoot.add_domain_event`: append to the pending list. -/
def Order.add_domain_event (self : Order) (event : DomainEvent) : Order :=
  { self with domain_events := self.domain_events ++ [event] }

/-- `AggregateRoot.collect_domain_events` on an `Order`: returns the
pending list and the receiver with the list cleared. -/
def Order.collect_domain_events (self : Order) : List DomainEvent × Order :=
  (self.domain_events, { self with domain_events := [] })

/-- `AggregateRoot.clear_domain_events` on an `Order`. -/
def Order.clear_domain_events (self : Order) : Order :=
  { self with domain_events := [] }

/-- The `Order(...)` dataclass constructor followed by `__post_init__`,
which runs `_validate_business_rules`: fails with
`BusinessRuleViolation("MinimumOrderAmount")` when
`total_amount.amount <= 0`.  A freshly constructed aggregate has an empty
pending-event list. -/
def Order.mkChecked (order_id : OrderId) (customer_id : CustomerId)
    (total_amount : Money) (status : OrderStatus) (details : PyDict)
    (created_at updated_at : Timestamp) : Except PyError Order :=
  if total_amount.amount ≤ 0 then
    .error (.businessRuleViolation "Order total amount must be greater than zero"
      (some "MinimumOrderAmount"))
  else
    .ok { order_id := order_id, customer_id := customer_id,
          total_amount := total_amount, status := status, details := details,
          created_at := created_at, updated_at := updated_at,
          domain_events := [] }

/-- `Order.create` factory: construct with status `PENDING` (timestamps
defaulting to now), then emit `OrderCreated`.  `details or {}` is the
`Option.getD` below. -/
def Order.create (order_id : OrderId) (customer_id : CustomerId)
    (total_amount : Money) (details : Option PyDict)
    (eid : UUID) (now : Timestamp) : Except PyError Order :=
  match Order.mkChecked order_id customer_id total_amount .PENDING
      (details.getD []) now now with
  | .error e => .error e
  | .ok o => .ok (o.add_domain_event
      (.orderCreated eid now order_id customer_id total_amount))

/-- `Order.can_be_cancelled`: status ∈ {PENDING, CONFIRMED}. -/
def Order.can_be_cancelled (self : Order) : Bool :=
  self.status == .PENDING || self.status == .CONFIRMED

/-- `Order._change_status`: rebuild the order with the new status,
`updated_at` refreshed, carry the pending events forward and append an
`OrderStatusChanged` event. -/
def Order.change_status (self : Order) (new_status : OrderStatus)
    (eid : UUID) (now : Timestamp) : Except PyError Order :=
  match Order.mkChecked self.order_id self.customer_id self.total_amount
      new_status self.details self.created_at now with
  | .error e => .error e
  | .ok u => .ok (({ u with domain_events := self.domain_events }).add_domain_event
      (.orderStatusChanged eid now self.order_id self.customer_id
        self.status new_status))

/-- `Order.confirm`: guarded by status = PENDING.  The second component is
the receiver after the call (never modified by the source). -/
def Order.confirm (self : Order) (eid : UUID) (now : Timestamp) :
    Except PyError Order × Order :=
  if self.status ≠ .PENDING then
    (.error (.businessRuleViolation
      ("Only pending orders can be confirmed. Current status: " ++ self.status.value)
      (some "OrderConfirmationRule")), self)
  else
    (self.change_status .CONFIRMED eid now, self)

/-- `Order.ship`: guarded by status = CONFIRMED. -/
def Order.ship (self : Order) (eid : UUID) (now : Timestamp) :
    Except PyError Order × Order :=
  if self.status ≠ .CONFIRMED then
    (.error (.businessRuleViolation
      ("Only confirmed orders can be shipped. Current status: " ++ self.status.value)
      (some "OrderShippingRule")), self)
  else
    (self.change_status .SHIPPED eid now, self)

/-- `Order.deliver`: guarded by status = SHIPPED. -/
def Order.deliver (self : Order) (eid : UUID) (now : Timestamp) :
    Except PyError Order × Order :=
  if self.status ≠ .SHIPPED then
    (.error (.businessRuleViolation
      ("Only shipped orders can be delivered. Current status: " ++ self.status.value)
      (some "OrderDeliveryRule")), self)
  else
    (self.change_status .DELIVERED eid now, self)

/-- `Order.cancel`: guarded by `can_be_cancelled`; the Python default
argument `reason="Customer request"` is modelled by an `Option`. -/
def Order.cancel (self : Order) (reasonOpt : Option String)
    (eid : UUID) (now : Timestamp) : Except PyError Order × Order :=
  let reason := reasonOpt.getD "Customer request"
  if !self.can_be_cancelled then
    (.error (.businessRuleViolation
      ("Order in " ++ self.status.value ++ " status cannot be cancelled")
      (some "OrderCancellationRule")), self)
  else
    match Order.mkChecked self.order_id self.customer_id self.total_amount
        .CANCELLED self.details self.created_at now with
    | .error e => (.error e, self)
    | .ok u => (.ok (({ u with domain_events := self.domain_events }).add_domain_event
        (.orderCancelled eid now self.order_id self.customer_id
          self.status reason)), self)

/-- `Customer` aggregate root (`src/domain/entities/customer.py`).  As for
`Order`, `Entity.id` is derived (`Customer.id`) and `_domain_events` is
the `domain_events` field. -/
structure Customer where
  customer_id : CustomerId
  name : String
  email : Email
  address : Option Address
  phone : Option PhoneNumber
  is_active : Bool
  preferences : PyDict
  created_at : Timestamp
  updated_at : Timestamp
  domain_events : List DomainEvent
  deriving DecidableEq, Repr

/-- `Entity.id` of a `Customer`, as set by `Customer.__post_init__`. -/
def Customer.id (c : Customer) : UUID := c.customer_id.value

/-- `AggregateRoot.add_domain_event` on a `Customer`. -/
def Customer.add_domain_event (self : Customer) (event : DomainEvent) : Customer :=
  { self with domain_events := self.domain_events ++ [event] }

/-- `AggregateRoot.collect_domain_events` on a `Customer`: returns the
pending list and the receiver with the list cleared. -/
def Customer.collect_domain_events (self : Customer) : List DomainEvent × Customer :=
  (self.domain_events, { self with domain_events := [] })

/-- `AggregateRoot.clear_domain_events` on a `Customer`. -/
def Customer.clear_domain_events (self : Customer) : Customer :=
  { self with domain_events := [] }

/-- The `Customer(...)` dataclass constructor followed by `__post_init__`,
which runs `_validate_business_rules`: fails with a `ValueError` when the
stripped name is empty. -/
def Customer.mkChecked (customer_id : CustomerId) (name : String) (email : Email)
    (address : Option Address) (phone : Option PhoneNumber) (is_active : Bool)
    (preferences : PyDict) (created_at updated_at : Timestamp) :
    Except PyError Customer :=
  if pyStrip name = "" then
    .error (.valueError "Customer name cannot be empty")
  else
    .ok { customer_id := customer_id, name := name, email := email,
          address := address, phone := phone, is_active := is_active,
          preferences := preferences, created_at := created_at,
          updated_at := updated_at, domain_events := [] }

/-- `Customer.create` factory: construct active with timestamps defaulting
to now, then emit `CustomerCreated` (the email is stringified). -/
def Customer.create (customer_id : CustomerId) (name : String) (email : Email)
    (address : Option Address) (phone : Option PhoneNumber)
    (preferences : Option PyDict) (eid : UUID) (now : Timestamp) :
    Except PyError Customer :=
  match Customer.mkChecked customer_id name email address phone true
      (preferences.getD []) now now with
  | .error e => .error e
  | .ok c => .ok (c.add_domain_event
      (.customerCreated eid now customer_id name email.value))

/-- `Customer.deactivate`: guarded by `is_active` (already-inactive raises
`ValueError`), rebuilds the customer inactive with `updated_at` refreshed,
copies the pending events forward and appends `CustomerDeactivated`.  The
Python default argument `reason="Manual deactivation"` is an `Option`; the
second component is the receiver after the call. -/
def Customer.deactivate (self : Customer) (reasonOpt : Option String)
    (eid : UUID) (now : Timestamp) : Except PyError Customer × Customer :=
  let reason := reasonOpt.getD "Manual deactivation"
  if !self.is_active then
    (.error (.valueError "Customer is already deactivated"), self)
  else
    match Customer.mkChecked self.customer_id self.name self.email self.address
        self.phone false self.preferences self.created_at now with
    | .error e => (.error e, self)
    | .ok d => (.ok (({ d with domain_events := self.domain_events }).add_domain_event
        (.customerDeactivated eid now self.customer_id reason)), self)

/-- `Customer.update_address`: rebuilds the customer with the new address
and `updated_at` refreshed.  The source neither copies the pending events
forward nor emits an event, so the returned customer's pending list is the
fresh constructor's empty list. -/
def Customer.update_address (self : Customer) (address : Address)
    (now : Timestamp) : Except PyError Customer × Customer :=
  (Customer.mkChecked self.customer_id self.name self.email (some address)
    self.phone self.is_active self.preferences self.created_at now, self)

/-- `Customer.update_phone`: same shape as `update_address`, replacing the
phone number. -/
def Customer.update_phone (self : Customer) (phone : PhoneNumber)
    (now : Timestamp) : Except PyError Customer × Customer :=
  (Customer.mkChecked self.customer_id self.name self.email self.address
    (some phone) self.is_active self.preferences self.created_at now, self)

/-! ### Helper lemmas -/

theorem Order.mkChecked_of_pos (order_id : OrderId) (customer_id : CustomerId)
    (m : Money) (st : OrderStatus) (d : PyDict) (ca ua : Timestamp)
    (h : 0 < m.amount) :
    Order.mkChecked order_id customer_id m st d ca ua =
      .ok { order_id := order_id, customer_id := customer_id, total_amount := m,
            status := st, details := d, created_at := ca, updated_at := ua,
            domain_events := [] } := by
  unfold Order.mkChecked
  rw [if_neg (not_le.mpr h)]

theorem Order.change_status_eq (o : Order) (st : OrderStatus)
    (eid : UUID) (now : Timestamp) (h : 0 < o.total_amount.amount) :
    o.change_status st eid now =
      .ok { order_id := o.order_id, customer_id := o.customer_id,
            total_amount := o.total_amount, status := st, details := o.details,
            created_at := o.created_at, updated_at := now,
            domain_events := o.domain_events ++
              [.orderStatusChanged eid now o.order_id o.customer_id o.status st] } := by
  unfold Order.change_status
  rw [Order.mkChecked_of_pos _ _ _ _ _ _ _ h]
  rfl

/-! ### Concrete sample values used by witnesses and counterexamples -/

def wMoney : Money := ⟨100, "USD"⟩

def wOrderAt (st : OrderStatus) : Order :=
  { order_id := ⟨11⟩, customer_id := ⟨22⟩, total_amount := wMoney, status := st,
    details := [], created_at := 0, updated_at := 0, domain_events := [] }

/-! ### Claims -/

/-- C1: for every Order and every transition operation not permitted by the
transition table for its current status, the operation fails with a
`BusinessRuleViolation` carrying the documented rule name
(`OrderConfirmationRule` / `OrderShippingRule` / `OrderDeliveryRule` /
`OrderCancellationRule`), and the receiver (in particular its status) is
unchanged after the failure. -/
theorem order_invalid_transition_fails (o : Order) (eid : UUID) (now : Timestamp) :
    (o.status ≠ .PENDING →
      o.confirm eid now = (.error (.businessRuleViolation
        ("Only pending orders can be confirmed. Current status: " ++ o.status.value)
        (some "OrderConfirmationRule")), o))
    ∧ (o.status ≠ .CONFIRMED →
      o.ship eid now = (.error (.businessRuleViolation
        ("Only confirmed orders can be shipped. Current status: " ++ o.status.value)
        (some "OrderShippingRule")), o))
    ∧ (o.status ≠ .SHIPPED →
      o.deliver eid now = (.error (.businessRuleViolation
        ("Only shipped orders can be delivered. Current status: " ++ o.status.value)
        (some "OrderDeliveryRule")), o))
    ∧ (∀ r : Option String, o.status ≠ .PENDING → o.status ≠ .CONFIRMED →
      o.cancel r eid now = (.error (.businessRuleViolation
        ("Order in " ++ o.status.value ++ " status cannot be cancelled")
        (some "OrderCancellationRule")), o)) := by
  refine ⟨fun h => ?_, fun h => ?_, fun h => ?_, fun r h1 h2 => ?_⟩
  · unfold Order.confirm; rw [if_pos h]
  · unfold Order.ship; rw [if_pos h]
  · unfold Order.deliver; rw [if_pos h]
  · have hc : o.can_be_cancelled = false := by
      unfold Order.can_be_cancelled
      cases hs : o.status <;> simp_all
    unfold Order.cancel
    simp only [hc, Bool.not_false, if_true]

/-- C1 witness: a DELIVERED order refuses all four operations with the
documented rule names and is returned unchanged. -/
theorem order_invalid_transition_fails_witness :
    ((wOrderAt .DELIVERED).confirm 1 2 = (.error (.businessRuleViolation
        "Only pending orders can be confirmed. Current status: DELIVERED"
        (some "OrderConfirmationRule")), wOrderAt .DELIVERED))
    ∧ ((wOrderAt .DELIVERED).ship 1 2 = (.error (.businessRuleViolation
        "Only confirmed orders can be shipped. Current status: DELIVERED"
        (some "OrderShippingRule")), wOrderAt .DELIVERED))
    ∧ ((wOrderAt .DELIVERED).deliver 1 2 = (.error (.businessRuleViolation
        "Only shipped orders can be delivered. Current status: DELIVERED"
        (some "OrderDeliveryRule")), wOrderAt .DELIVERED))
    ∧ ((wOrderAt .DELIVERED).cancel none 1 2 = (.error (.businessRuleViolation
        "Order in DELIVERED status cannot be cancelled"
        (some "OrderCancellationRule")), wOrderAt .DELIVERED)) :=
  ⟨(order_invalid_transition_fails (wOrderAt .DELIVERED) 1 2).1 (by decide),
   (order_invalid_transition_fails (wOrderAt .DELIVERED) 1 2).2.1 (by decide),
   (order_invalid_transition_fails (wOrderAt .DELIVERED) 1 2).2.2.1 (by decide),
   (order_invalid_transition_fails (wOrderAt .DELIVERED) 1 2).2.2.2 none (by decide) (by decide)⟩

/-- C5: every order creation with a non-positive total amount fails with
`BusinessRuleViolation("MinimumOrderAmount")`. -/
theorem order_create_nonpositive_fails (order_id : OrderId) (customer_id : CustomerId)
    (m : Money) (d : Option PyDict) (eid : UUID) (now : Timestamp)
    (h : m.amount ≤ 0) :
    Order.create order_id customer_id m d eid now =
      .error (.businessRuleViolation "Order total amount must be greater than zero"
        (some "MinimumOrderAmount")) := by
  unfold Order.create Order.mkChecked
  rw [if_pos h]

/-- C5 witness: creation fails with `MinimumOrderAmount` both at amount 0
and at amount -1. -/
theorem order_create_nonpositive_fails_witness :
    (Order.create ⟨11⟩ ⟨22⟩ ⟨0, "USD"⟩ none 1 2 =
      .error (.businessRuleViolation "Order total amount must be greater than zero"
        (some "MinimumOrderAmount")))
    ∧ (Order.create ⟨11⟩ ⟨22⟩ ⟨-1, "USD"⟩ none 1 2 =
      .error (.businessRuleViolation "Order total amount must be greater than zero"
        (some "MinimumOrderAmount"))) :=
  ⟨order_create_nonpositive_fails ⟨11⟩ ⟨22⟩ ⟨0, "USD"⟩ none 1 2 (by decide),
   order_create_nonpositive_fails ⟨11⟩ ⟨22⟩ ⟨-1, "USD"⟩ none 1 2 (by decide)⟩

/-- C9: on both aggregate roots, `collect_domain_events` returns the
pending events in emission order and empties the pending list, so a second
consecutive call returns the empty list. -/
theorem collect_domain_events_drains (o : Order) (c : Customer) :
    (o.collect_domain_events.1 = o.domain_events
      ∧ o.collect_domain_events.2.collect_domain_events.1 = [])
    ∧ (c.collect_domain_events.1 = c.domain_events
      ∧ c.collect_domain_events.2.collect_domain_events.1 = []) :=
  ⟨⟨rfl, rfl⟩, ⟨rfl, rfl⟩⟩

/-- C2: every successful transition returns an Order whose pending-event
list is the receiver's not-yet-collected events followed by exactly one
new event: `OrderStatusChanged{old_status, new_status}` for
confirm/ship/deliver, and `OrderCancelled{previous_status, reason}` for
cancel, the reason defaulting to "Customer request". -/
theorem order_transition_appends_one_event (o : Order) (eid : UUID) (now : Timestamp) :
    (∀ o', (o.confirm eid now).1 = .ok o' →
      o'.domain_events = o.domain_events ++
        [.orderStatusChanged eid now o.order_id o.customer_id o.status .CONFIRMED])
    ∧ (∀ o', (o.ship eid now).1 = .ok o' →
      o'.domain_events = o.domain_events ++
        [.orderStatusChanged eid now o.order_id o.customer_id o.status .SHIPPED])
    ∧ (∀ o', (o.deliver eid now).1 = .ok o' →
      o'.domain_events = o.domain_events ++
        [.orderStatusChanged eid now o.order_id o.customer_id o.status .DELIVERED])
    ∧ (∀ (r : Option String) o', (o.cancel r eid now).1 = .ok o' →
      o'.domain_events = o.domain_events ++
        [.orderCancelled eid now o.order_id o.customer_id o.status
          (r.getD "Customer request")]) := by
  refine ⟨fun o' h => ?_, fun o' h => ?_, fun o' h => ?_, fun r o' h => ?_⟩
  · unfold Order.confirm Order.change_status Order.mkChecked at h
    split at h
    · simp at h
    · split at h
      · simp at h
      · simp only [Except.ok.injEq] at h
        subst h; rfl
  · unfold Order.ship Order.change_status Order.mkChecked at h
    split at h
    · simp at h
    · split at h
      · simp at h
      · simp only [Except.ok.injEq] at h
        subst h; rfl
  · unfold Order.deliver Order.change_status Order.mkChecked at h
    split at h
    · simp at h
    · split at h
      · simp at h
      · simp only [Except.ok.injEq] at h
        subst h; rfl
  · unfold Order.cancel Order.mkChecked at h
    split at h
    · simp at h
    · split at h
      · simp at h
      · simp only [Except.ok.injEq] at h
        subst h; rfl

def exceptGetD {α : Type} (e : Except PyError α) (d : α) : α :=
  match e with
  | .ok a => a
  | .error _ => d

def wConfirmedRes : Order := exceptGetD ((wOrderAt .PENDING).confirm 1 2).1 (wOrderAt .PENDING)

def wShippedRes : Order := exceptGetD ((wOrderAt .CONFIRMED).ship 1 2).1 (wOrderAt .CONFIRMED)

def wDeliveredRes : Order := exceptGetD ((wOrderAt .SHIPPED).deliver 1 2).1 (wOrderAt .SHIPPED)

def wCancelledRes : Order := exceptGetD ((wOrderAt .CONFIRMED).cancel none 1 2).1 (wOrderAt .CONFIRMED)

/-- C2 witness: each of the four transitions, run on a concrete order in
its permitted status, appends exactly the expected single event. -/
theorem order_transition_appends_one_event_witness :
    (wConfirmedRes.domain_events = (wOrderAt .PENDING).domain_events ++
      [.orderStatusChanged 1 2 ⟨11⟩ ⟨22⟩ .PENDING .CONFIRMED])
    ∧ (wShippedRes.domain_events = (wOrderAt .CONFIRMED).domain_events ++
      [.orderStatusChanged 1 2 ⟨11⟩ ⟨22⟩ .CONFIRMED .SHIPPED])
    ∧ (wDeliveredRes.domain_events = (wOrderAt .SHIPPED).domain_events ++
      [.orderStatusChanged 1 2 ⟨11⟩ ⟨22⟩ .SHIPPED .DELIVERED])
    ∧ (wCancelledRes.domain_events = (wOrderAt .CONFIRMED).domain_events ++
      [.orderCancelled 1 2 ⟨11⟩ ⟨22⟩ .CONFIRMED "Customer request"]) :=
  ⟨(order_transition_appends_one_event (wOrderAt .PENDING) 1 2).1 wConfirmedRes rfl,
   (order_transition_appends_one_event (wOrderAt .CONFIRMED) 1 2).2.1 wShippedRes rfl,
   (order_transition_appends_one_event (wOrderAt .SHIPPED) 1 2).2.2.1 wDeliveredRes rfl,
   (order_transition_appends_one_event (wOrderAt .CONFIRMED) 1 2).2.2.2 none wCancelledRes rfl⟩

/-- C3: every permitted transition (on an order satisfying the standing
amount invariant) returns a new Order with the same `order_id` (hence the
same entity identity), `customer_id`, `total_amount`, `details` and
`created_at`, the table's target status, and `updated_at` refreshed to the
current time; the receiver itself is returned unchanged (copy-on-transition,
not in-place mutation). -/
theorem order_transition_copies_fields (o : Order) (eid : UUID) (now : Timestamp) :
    (o.status = .PENDING → 0 < o.total_amount.amount →
      o.confirm eid now = (.ok
        { order_id := o.order_id, customer_id := o.customer_id,
          total_amount := o.total_amount, status := .CONFIRMED,
          details := o.details, created_at := o.created_at, updated_at := now,
          domain_events := o.domain_events ++
            [.orderStatusChanged eid now o.order_id o.customer_id o.status
              .CONFIRMED] }, o))
    ∧ (o.status = .CONFIRMED → 0 < o.total_amount.amount →
      o.ship eid now = (.ok
        { order_id := o.order_id, customer_id := o.customer_id,
          total_amount := o.total_amount, status := .SHIPPED,
          details := o.details, created_at := o.created_at, updated_at := now,
          domain_events := o.domain_events ++
            [.orderStatusChanged eid now o.order_id o.customer_id o.status
              .SHIPPED] }, o))
    ∧ (o.status = .SHIPPED → 0 < o.total_amount.amount →
      o.deliver eid now = (.ok
        { order_id := o.order_id, customer_id := o.customer_id,
          total_amount := o.total_amount, status := .DELIVERED,
          details := o.details, created_at := o.created_at, updated_at := now,
          domain_events := o.domain_events ++
            [.orderStatusChanged eid now o.order_id o.customer_id o.status
              .DELIVERED] }, o))
    ∧ (∀ r : Option String, o.can_be_cancelled = true → 0 < o.total_amount.amount →
      o.cancel r eid now = (.ok
        { order_id := o.order_id, customer_id := o.customer_id,
          total_amount := o.total_amount, status := .CANCELLED,
          details := o.details, created_at := o.created_at, updated_at := now,
          domain_events := o.domain_events ++
            [.orderCancelled eid now o.order_id o.customer_id o.status
              (r.getD "Customer request")] }, o)) := by
  refine ⟨fun hs hp => ?_, fun hs hp => ?_, fun hs hp => ?_, fun r hc hp => ?_⟩
  · unfold Order.confirm
    rw [if_neg (not_ne_iff.mpr hs), Order.change_status_eq _ _ _ _ hp]
  · unfold Order.ship
    rw [if_neg (not_ne_iff.mpr hs), Order.change_status_eq _ _ _ _ hp]
  · unfold Order.deliver
    rw [if_neg (not_ne_iff.mpr hs), Order.change_status_eq _ _ _ _ hp]
  · unfold Order.cancel
    simp only [hc, Bool.not_true, Bool.false_eq_true, if_false,
      Order.mkChecked_of_pos _ _ _ _ _ _ _ hp]
    rfl

/-- C3 witness: the four transitions at concrete orders in their permitted
statuses yield exactly the copied-field results and return the receiver
unchanged. -/
theorem order_transition_copies_fields_witness :
    ((wOrderAt .PENDING).confirm 1 2 = (.ok wConfirmedRes, wOrderAt .PENDING))
    ∧ ((wOrderAt .CONFIRMED).ship 1 2 = (.ok wShippedRes, wOrderAt .CONFIRMED))
    ∧ ((wOrderAt .SHIPPED).deliver 1 2 = (.ok wDeliveredRes, wOrderAt .SHIPPED))
    ∧ ((wOrderAt .CONFIRMED).cancel none 1 2 = (.ok wCancelledRes, wOrderAt .CONFIRMED)) :=
  ⟨(order_transition_copies_fields (wOrderAt .PENDING) 1 2).1 rfl (by decide),
   (order_transition_copies_fields (wOrderAt .CONFIRMED) 1 2).2.1 rfl (by decide),
   (order_transition_copies_fields (wOrderAt .SHIPPED) 1 2).2.2.1 rfl (by decide),
   (order_transition_copies_fields (wOrderAt .CONFIRMED) 1 2).2.2.2 none rfl (by decide)⟩

/-- The chained round trip `Order.create(...).confirm().ship().deliver()`,
each step feeding the Order returned by the previous one into the next;
a raised exception at any step propagates. -/
def Order.lifecycle (order_id : OrderId) (customer_id : CustomerId) (m : Money)
    (d : Option PyDict) (e1 e2 e3 e4 : UUID) (t1 t2 t3 t4 : Timestamp) :
    Except PyError Order :=
  (Order.create order_id customer_id m d e1 t1).bind fun a =>
    ((a.confirm e2 t2).1).bind fun b =>
      ((b.ship e3 t3).1).bind fun c =>
        (c.deliver e4 t4).1

/-- C4: for every valid positive total amount, the chained
create → confirm → ship → deliver round trip succeeds, ends in status
DELIVERED, and accumulates exactly 4 pending events: one `OrderCreated`
followed by three `OrderStatusChanged` events in emission order. -/
theorem order_round_trip (order_id : OrderId) (customer_id : CustomerId)
    (m : Money) (d : Option PyDict) (e1 e2 e3 e4 : UUID) (t1 t2 t3 t4 : Timestamp)
    (h : 0 < m.amount) :
    Order.lifecycle order_id customer_id m d e1 e2 e3 e4 t1 t2 t3 t4 = .ok
      { order_id := order_id, customer_id := customer_id, total_amount := m,
        status := .DELIVERED, details := d.getD [], created_at := t1,
        updated_at := t4,
        domain_events :=
          [.orderCreated e1 t1 order_id customer_id m,
           .orderStatusChanged e2 t2 order_id customer_id .PENDING .CONFIRMED,
           .orderStatusChanged e3 t3 order_id customer_id .CONFIRMED .SHIPPED,
           .orderStatusChanged e4 t4 order_id customer_id .SHIPPED .DELIVERED] } := by
  have hA : Order.create order_id customer_id m d e1 t1 = .ok
      { order_id := order_id, customer_id := customer_id, total_amount := m,
        status := .PENDING, details := d.getD [], created_at := t1,
        updated_at := t1,
        domain_events := [.orderCreated e1 t1 order_id customer_id m] } := by
    unfold Order.create
    rw [Order.mkChecked_of_pos _ _ _ _ _ _ _ h]
    rfl
  have hB : ∀ a : Order, a.status = .PENDING → 0 < a.total_amount.amount →
      (a.confirm e2 t2).1 = .ok
        { order_id := a.order_id, customer_id := a.customer_id,
          total_amount := a.total_amount, status := .CONFIRMED,
          details := a.details, created_at := a.created_at, updated_at := t2,
          domain_events := a.domain_events ++
            [.orderStatusChanged e2 t2 a.order_id a.customer_id a.status
              .CONFIRMED] } := by
    intro a hs hp
    unfold Order.confirm
    rw [if_neg (not_ne_iff.mpr hs), Order.change_status_eq _ _ _ _ hp]
  have hC : ∀ a : Order, a.status = .CONFIRMED → 0 < a.total_amount.amount →
      (a.ship e3 t3).1 = .ok
        { order_id := a.order_id, customer_id := a.customer_id,
          total_amount := a.total_amount, status := .SHIPPED,
          details := a.details, created_at := a.created_at, updated_at := t3,
          domain_events := a.domain_events ++
            [.orderStatusChanged e3 t3 a.order_id a.customer_id a.status
              .SHIPPED] } := by
    intro a hs hp
    unfold Order.ship
    rw [if_neg (not_ne_iff.mpr hs), Order.change_status_eq _ _ _ _ hp]
  have hD : ∀ a : Order, a.status = .SHIPPED → 0 < a.total_amount.amount →
      (a.deliver e4 t4).1 = .ok
        { order_id := a.order_id, customer_id := a.customer_id,
          total_amount := a.total_amount, status := .DELIVERED,
          details := a.details, created_at := a.created_at, updated_at := t4,
          domain_events := a.domain_events ++
            [.orderStatusChanged e4 t4 a.order_id a.customer_id a.status
              .DELIVERED] } := by
    intro a hs hp
    unfold Order.deliver
    rw [if_neg (not_ne_iff.mpr hs), Order.change_status_eq _ _ _ _ hp]
  unfold Order.lifecycle
  rw [hA]
  simp only [Except.bind]
  rw [hB _ rfl h]
  simp only [Except.bind]
  rw [hC _ rfl h]
  simp only [Except.bind]
  rw [hD _ rfl h]
  rfl

/-- C4 witness: a concrete order with amount 100 USD runs the whole round
trip to DELIVERED with the four expected events. -/
theorem order_round_trip_witness :
    Order.lifecycle ⟨11⟩ ⟨22⟩ wMoney none 1 2 3 4 10 20 30 40 = .ok
      { order_id := ⟨11⟩, customer_id := ⟨22⟩, total_amount := wMoney,
        status := .DELIVERED, details := [], created_at := 10, updated_at := 40,
        domain_events :=
          [.orderCreated 1 10 ⟨11⟩ ⟨22⟩ wMoney,
           .orderStatusChanged 2 20 ⟨11⟩ ⟨22⟩ .PENDING .CONFIRMED,
           .orderStatusChanged 3 30 ⟨11⟩ ⟨22⟩ .CONFIRMED .SHIPPED,
           .orderStatusChanged 4 40 ⟨11⟩ ⟨22⟩ .SHIPPED .DELIVERED] } :=
  order_round_trip ⟨11⟩ ⟨22⟩ wMoney none 1 2 3 4 10 20 30 40 (by decide)

/-- Concrete customer with one not-yet-collected event, used as input by
witnesses and counterexamples. -/
def wCust : Customer :=
  { customer_id := ⟨1⟩, name := "John Doe", email := ⟨"john@example.com"⟩,
    address := none, phone := none, is_active := true, preferences := [],
    created_at := 0, updated_at := 0,
    domain_events := [.customerCreated 2 0 ⟨1⟩ "John Doe" "john@example.com"] }

def wAddr : Address :=
  { street := "456 Oak Ave", city := "New City", state := "NY",
    postal_code := "54321", country := "USA" }

def wPhone : PhoneNumber := { number := "5551234567", country_code := "+1" }

def exceptCustGetD (e : Except PyError Customer) (d : Customer) : Customer :=
  match e with
  | .ok a => a
  | .error _ => d

def wCustDeact : Customer := exceptCustGetD (wCust.deactivate none 7 9).1 wCust

def wCustAddr : Customer := exceptCustGetD (wCust.update_address wAddr 9).1 wCust

def wCustPhone : Customer := exceptCustGetD (wCust.update_phone wPhone 9).1 wCust

/-- Spec-side shape of an event-carrying mutation, following the spec's
words: the mutated aggregate's pending list is the prior aggregate's
unconsumed events with exactly one new event appended. -/
def spec_carriesForwardPlusOne (before after : List DomainEvent) : Bool :=
  decide (after.length = before.length + 1) && decide (after.take before.length = before)

/-- C6 counterexample: on a customer holding one unconsumed event,
`update_address` succeeds but returns a customer whose pending event list
is empty — it neither carries the prior event forward nor appends a new
one, refuting the claim for the `update_address` (and likewise
`update_phone`) mutation. -/
theorem customer_update_drops_events_counterexample :
    (wCust.update_address wAddr 9).1 = .ok wCustAddr
    ∧ wCust.domain_events.length = 1
    ∧ wCustAddr.domain_events = []
    ∧ spec_carriesForwardPlusOne wCust.domain_events wCustAddr.domain_events = false :=
  ⟨rfl, rfl, rfl, rfl⟩

/-- C6 (amended): `deactivate` returns a new Customer whose pending list is
the prior aggregate's unconsumed events plus the new `CustomerDeactivated`
event, while `update_address`/`update_phone` return a new Customer with an
empty pending list and emit no event; all three leave the original
instance untouched. -/
theorem customer_mutation_event_lists (c : Customer) (a : Address) (p : PhoneNumber)
    (r : Option String) (eid : UUID) (now : Timestamp) :
    (c.is_active = true → pyStrip c.name ≠ "" →
      c.deactivate r eid now = (.ok
        { customer_id := c.customer_id, name := c.name, email := c.email,
          address := c.address, phone := c.phone, is_active := false,
          preferences := c.preferences, created_at := c.created_at,
          updated_at := now,
          domain_events := c.domain_events ++
            [.customerDeactivated eid now c.customer_id
              (r.getD "Manual deactivation")] }, c))
    ∧ (pyStrip c.name ≠ "" →
      c.update_address a now = (.ok
        { customer_id := c.customer_id, name := c.name, email := c.email,
          address := some a, phone := c.phone, is_active := c.is_active,
          preferences := c.preferences, created_at := c.created_at,
          updated_at := now, domain_events := [] }, c))
    ∧ (pyStrip c.name ≠ "" →
      c.update_phone p now = (.ok
        { customer_id := c.customer_id, name := c.name, email := c.email,
          address := c.address, phone := some p, is_active := c.is_active,
          preferences := c.preferences, created_at := c.created_at,
          updated_at := now, domain_events := [] }, c)) := by
  refine ⟨fun ha hn => ?_, fun hn => ?_, fun hn => ?_⟩
  · unfold Customer.deactivate Customer.mkChecked
    simp only [ha, Bool.not_true, Bool.false_eq_true, if_false, if_neg hn]
    rfl
  · unfold Customer.update_address Customer.mkChecked
    rw [if_neg hn]
  · unfold Customer.update_phone Customer.mkChecked
    rw [if_neg hn]

/-- C6 witness: the three mutations at a concrete active customer with one
pending event. -/
theorem customer_mutation_event_lists_witness :
    (wCust.deactivate none 7 9 = (.ok wCustDeact, wCust))
    ∧ (wCust.update_address wAddr 9 = (.ok wCustAddr, wCust))
    ∧ (wCust.update_phone wPhone 9 = (.ok wCustPhone, wCust)) :=
  ⟨(customer_mutation_event_lists wCust wAddr wPhone none 7 9).1 rfl (by decide),
   (customer_mutation_event_lists wCust wAddr wPhone none 7 9).2.1 (by decide),
   (customer_mutation_event_lists wCust wAddr wPhone none 7 9).2.2 (by decide)⟩

/-- C7 (amended): deactivating an already-inactive customer fails with a
`ValueError` (not a `BusinessRuleViolation`) whose message is
"Customer is already deactivated" — which contains "already deactivated" —
and the receiver is unchanged. -/
theorem customer_deactivate_inactive_fails (c : Customer) (r : Option String)
    (eid : UUID) (now : Timestamp) (h : c.is_active = false) :
    c.deactivate r eid now = (.error (.valueError "Customer is already deactivated"), c) := by
  unfold Customer.deactivate
  simp only [h, Bool.not_false, if_true]

def wCustInactive : Customer := { wCust with is_active := false }

/-- C7 witness: the already-inactive concrete customer. -/
theorem customer_deactivate_inactive_fails_witness :
    wCustInactive.deactivate none 3 4 =
      (.error (.valueError "Customer is already deactivated"), wCustInactive) :=
  customer_deactivate_inactive_fails wCustInactive none 3 4 rfl

def failsWithBusinessRuleViolation {α : Type} : Except PyError α → Bool
  | .error e => e.isBusinessRuleViolation
  | .ok _ => false

/-- C7 counterexample: the failed deactivation of an already-inactive
customer does fail, but the raised error is a plain `ValueError`, not a
`BusinessRuleViolation` as the claim states. -/
theorem customer_deactivate_error_kind_counterexample :
    exceptIsOk (wCustInactive.deactivate none 3 4).1 = false
    ∧ failsWithBusinessRuleViolation (wCustInactive.deactivate none 3 4).1 = false :=
  ⟨rfl, rfl⟩

/-- Spec-side predicate, following the spec's words: the currency code is
exactly 3 uppercase letters. -/
def spec_currencyIsThreeUppercaseLetters (s : String) : Bool :=
  decide (s.length = 3) && s.data.all (fun ch => ch.isAlpha && ch.isUpper)

/-- Spec-side predicate, following the spec's words: a Money input is
valid iff the amount is ≥ 0 and the currency is exactly 3 uppercase
letters. -/
def spec_moneyOk (amount : Rat) (currency : String) : Bool :=
  decide (0 ≤ amount) && spec_currencyIsThreeUppercaseLetters currency

/-- C8 counterexample: `Money(0, "US1")` is accepted by the implementation
although "US1" is not three uppercase letters — `str.isupper()` only looks
at the cased characters, so the digit is ignored. -/
theorem money_accepts_non_letter_currency :
    Money.init 0 "US1" = .ok ⟨0, "US1"⟩
    ∧ spec_moneyOk 0 "US1" = false := by
  refine ⟨?_, by decide⟩
  unfold Money.init
  rw [if_neg (by decide), if_neg (by decide), if_neg (by decide)]

/-- C8 (amended): Money construction succeeds iff the amount is ≥ 0 and
the currency string has length 3 and satisfies Python's `isupper()` (at
least one cased character, all cased characters uppercase); any other
input fails at construction with a validation error, and construction is
the only entry point. -/
theorem money_init_ok_iff (a : Rat) (c : String) :
    exceptIsOk (Money.init a c) = true ↔
      (0 ≤ a ∧ c.length = 3 ∧ pyIsUpper c = true) := by
  unfold Money.init
  by_cases h1 : a < 0
  · rw [if_pos h1]
    simp only [exceptIsOk, Bool.false_eq_true, false_iff, not_and]
    intro hle
    exact absurd hle (not_le.mpr h1)
  · rw [if_neg h1]
    by_cases h2 : c = ""
    · rw [if_pos h2]
      simp only [exceptIsOk, Bool.false_eq_true, false_iff, not_and]
      intro _ hlen
      rw [h2] at hlen
      exact absurd hlen (by decide)
    · rw [if_neg h2]
      by_cases h3 : c.length ≠ 3 || !(pyIsUpper c)
      · rw [if_pos h3]
        simp only [exceptIsOk, Bool.false_eq_true, false_iff, not_and]
        intro _ hlen
        rcases Bool.or_eq_true_iff.mp h3 with hl | hu
        · exact absurd hlen (by simpa using hl)
        · intro hup
          rw [hup] at hu
          exact absurd hu (by decide)
      · rw [if_neg h3]
        simp only [exceptIsOk, true_iff]
        have h3f : (decide (c.length ≠ 3) || !pyIsUpper c) = false := by
          simpa using h3
        rcases Bool.or_eq_false_iff.mp h3f with ⟨hl, hu⟩
        refine ⟨not_lt.mp h1, not_ne_iff.mp (of_decide_eq_false hl), ?_⟩
        simpa using hu

/-- C8 witness: the amended iff evaluated at the valid input (0, "USD"). -/
theorem money_init_ok_iff_witness : exceptIsOk (Money.init 0 "USD") = true :=
  (money_init_ok_iff 0 "USD").mpr (by decide)

/-- Runtime view of a concrete aggregate object, tagged by its Python
class; used to express the `==` and `hash()` Python actually dispatches on
`Customer` and `Order` values. -/
inductive EntityValue where
  | customer (c : Customer)
  | order (o : Order)
  deriving DecidableEq, Repr

/-- The `__eq__` Python dispatches on `Customer`/`Order` objects.
`Entity` defines an id-only `__eq__` in its body, but the bare
`@dataclass` decorator on `AggregateRoot`, `Customer` and `Order`
(`eq=True` by default, no `__eq__` of their own) generates a fresh
`__eq__` on each concrete class that first requires
`other.__class__ is self.__class__` and then compares the tuple of all
dataclass fields (including `id` and `_domain_events`), shadowing
`Entity.__eq__`.  Same class: all-fields comparison, i.e. structural
equality of the embedded record.  Different classes: both directions
return `NotImplemented`, so `==` falls back to object identity, which is
false for two objects of distinct classes. -/
def EntityValue.pyEq : EntityValue → EntityValue → Bool
  | .customer a, .customer b => decide (a = b)
  | .order a, .order b => decide (a = b)
  | _, _ => false

/-- The `__hash__` slot Python dispatches for `Customer`/`Order`: a bare
`@dataclass` with `eq=True`, not frozen and no explicit `__hash__` in the
class body sets `__hash__ = None`, so `hash()` on these aggregates raises
`TypeError`; `none` models the absent slot (no hash value exists),
shadowing `Entity.__hash__`. -/
def EntityValue.hashSlot : EntityValue → Option UInt64
  | .customer _ => none
  | .order _ => none

def wOrderSameId : Order := { wOrderAt .PENDING with order_id := ⟨1⟩ }

/-- C10 counterexample: a concrete Customer and Order sharing UUID 1
compare unequal in both directions under the dispatched dataclass
equality, and neither class has a hash slot at all — refuting the claimed
type-ignoring equal-and-equal-hash behaviour. -/
theorem entity_cross_equality_counterexample :
    wCust.customer_id.value = wOrderSameId.order_id.value
    ∧ EntityValue.pyEq (.customer wCust) (.order wOrderSameId) = false
    ∧ EntityValue.pyEq (.order wOrderSameId) (.customer wCust) = false
    ∧ EntityValue.hashSlot (.customer wCust) = none
    ∧ EntityValue.hashSlot (.order wOrderSameId) = none :=
  ⟨rfl, rfl, rfl, rfl, rfl⟩

/-- C10 (amended): the equality Python dispatches on the concrete
aggregates is the `@dataclass`-generated, class-gated, all-fields one, not
`Entity.__eq__`: a Customer and an Order never compare equal, even when
their identity UUIDs coincide; neither class is hashable (`__hash__` is
`None`); even two Customers with the same identity but a different name
compare unequal, while a Customer equals itself; and the typed identifiers
(a `CustomerId` and an `OrderId` wrapping the same UUID) also compare
unequal. -/
theorem entity_equality_is_class_gated (u : UUID) (c c2 : Customer) (o : Order)
    (hc : c.customer_id.value = u) (ho : o.order_id.value = u)
    (hid : c2.customer_id = c.customer_id) (hname : c2.name ≠ c.name) :
    EntityValue.pyEq (.customer c) (.order o) = false
    ∧ EntityValue.pyEq (.order o) (.customer c) = false
    ∧ EntityValue.hashSlot (.customer c) = none
    ∧ EntityValue.hashSlot (.order o) = none
    ∧ EntityValue.pyEq (.customer c) (.customer c2) = false
    ∧ EntityValue.pyEq (.customer c) (.customer c) = true
    ∧ TypedIdValue.pyEq c.customer_id.asPy o.order_id.asPy = false := by
  refine ⟨rfl, rfl, rfl, rfl, ?_, ?_, rfl⟩
  · unfold EntityValue.pyEq
    exact decide_eq_false (fun he => hname (congrArg Customer.name he).symm)
  · unfold EntityValue.pyEq
    exact decide_eq_true rfl

def wCustRenamed : Customer := { wCust with name := "Jane Roe" }

/-- C10 witness: the amended statement at a concrete Customer and Order
sharing UUID 1, with a same-id differently-named second Customer. -/
theorem entity_equality_is_class_gated_witness :
    EntityValue.pyEq (.customer wCust) (.order wOrderSameId) = false
    ∧ EntityValue.pyEq (.order wOrderSameId) (.customer wCust) = false
    ∧ EntityValue.hashSlot (.customer wCust) = none
    ∧ EntityValue.hashSlot (.order wOrderSameId) = none
    ∧ EntityValue.pyEq (.customer wCust) (.customer wCustRenamed) = false
    ∧ EntityValue.pyEq (.customer wCust) (.customer wCust) = true
    ∧ TypedIdValue.pyEq wCust.customer_id.asPy wOrderSameId.order_id.asPy = false :=
  entity_equality_is_class_gated 1 wCust wCustRenamed wOrderSameId rfl rfl rfl (by decide)
